import Mathlib

/-!
Shallow embedding of the objectives-app backend (server source, single file)
for verification of its specification.

Modelling conventions:
* Database tables are `List`s of structures; uuid primary keys are modelled
  as `Nat` where a claim needs to refer to a row (otherwise omitted:
  no claim inspects a generated uuid).
* SQL numeric columns are `Option ℚ` when the column is nullable and the
  JavaScript code guards against `null`; JavaScript's `x || d` on numbers is
  `jsOr` below (`null`/`0` are falsy, every other number is truthy).
* Timestamp columns (`updated_at`, `last_received_at`, `created_at`) are
  omitted: no claim concerns them.
* JavaScript numbers are modelled as `ℚ`; the payload values the claims
  quantify over are numeric.
-/

/-- JavaScript `x || d` for a nullable numeric column: `null` and `0` are
falsy and yield the default, every other number is itself. -/
def jsOr (x : Option ℚ) (d : ℚ) : ℚ :=
  match x with
  | none => d
  | some v => if v = 0 then d else v

/-- JavaScript truthiness of a nullable string: `null` and `""` are falsy. -/
def jsTruthyStr (x : Option String) : Bool :=
  match x with
  | none => false
  | some s => s ≠ ""

/-- Row of the `objectives` table (fields the webhook/rollup code reads). -/
structure Objective where
  id : Nat
  owner_id : Option Nat
  parent_objective_id : Option Nat
  target_value : Option ℚ
  current_value : Option ℚ
  progress_percentage : Option ℚ
deriving Repr, DecidableEq

/-- Row of the `key_results` table (fields the rollup reads). -/
structure KeyResult where
  objective_id : Nat
  progress_percentage : Option ℚ
deriving Repr, DecidableEq

/-- Row of the `webhook_integrations` table. -/
structure WebhookIntegration where
  id : Nat
  objective_id : Nat
  webhook_secret : String
  status : String
  failure_count : Nat
deriving Repr, DecidableEq

/-- Row of the `webhook_events` table. -/
structure WebhookEvent where
  webhook_integration_id : Nat
  payload : String
  headers : String
  processed : Bool
  error_message : Option String
  value_before : Option ℚ
  value_after : Option ℚ
deriving Repr, DecidableEq

/-- Row of the `progress_updates` table. -/
structure ProgressUpdate where
  objective_id : Nat
  user_id : Option Nat
  previous_value : ℚ
  new_value : ℚ
  notes : String
deriving Repr, DecidableEq

/-- Row of the `comments` table. -/
structure Comment where
  objective_id : Nat
  user_id : Option Nat
  content : String
deriving Repr, DecidableEq

/-- Row of the `objective_contributors` table. -/
structure Contributor where
  objective_id : Nat
  user_id : Option Nat
deriving Repr, DecidableEq

/-- Row of the `objective_subscriptions` table. -/
structure Subscription where
  objective_id : Nat
  user_id : Option Nat
deriving Repr, DecidableEq

/-- Row of the `notifications` table (fields `createNotification` writes). -/
structure Notification where
  user_id : Nat
  type : String
  title : String
  message : String
  objective_id : Option Nat
  read : Bool
deriving Repr, DecidableEq

/-- Row of the `users` table (fields mention resolution reads). -/
structure User where
  id : Nat
  name : String
  email : String
deriving Repr, DecidableEq

/-- The database state: the tables the webhook / rollup / notification code
touches. -/
structure DB where
  objectives : List Objective
  key_results : List KeyResult
  webhook_integrations : List WebhookIntegration
  webhook_events : List WebhookEvent
  progress_updates : List ProgressUpdate
  comments : List Comment
  objective_contributors : List Contributor
  objective_subscriptions : List Subscription
  notifications : List Notification
  users : List User
deriving Repr, DecidableEq

/-- `calculateObjectiveProgress`: recompute an objective's progress from its
key results and persist it.  Returns the updated database and the function's
return value (the average progress, `0` on the no-objective and
no-key-results paths). -/
def calculateObjectiveProgress (db : DB) (objectiveId : Nat) : DB × ℚ :=
  match db.objectives.find? (fun o => o.id == objectiveId) with
  | none => (db, 0)
  | some objective =>
    let keyResults := db.key_results.filter (fun kr => kr.objective_id == objectiveId)
    if keyResults.length == 0 then
      ({ db with objectives := db.objectives.map (fun o =>
          if o.id == objectiveId then
            { o with progress_percentage := some 0, current_value := some 0 }
          else o) }, 0)
    else
      let totalProgress := keyResults.foldl (fun sum kr => sum + jsOr kr.progress_percentage 0) 0
      let averageProgress := totalProgress / (keyResults.length : ℚ)
      let targetValue := jsOr objective.target_value 100
      let currentValue := (averageProgress / 100) * targetValue
      ({ db with objectives := db.objectives.map (fun o =>
          if o.id == objectiveId then
            { o with progress_percentage := some averageProgress,
                     current_value := some currentValue }
          else o) }, averageProgress)

/-! ### Generic list lemmas for the row-update pattern

Every SQL `UPDATE ... WHERE id = ?` is modelled as a `map` that rewrites the
matching rows and keeps the rest; these lemmas relate `find?` before and
after such an update. -/

theorem find?_map_of_pres {α : Type} (l : List α) (p : α → Bool) (f : α → α)
    (hf : ∀ a, p (f a) = p a) : (l.map f).find? p = (l.find? p).map f := by
  induction l with
  | nil => simp
  | cons a l ih =>
    by_cases h : p a
    · simp [List.find?_cons_of_pos, h, hf]
    · have hfa : p (f a) = false := by rw [hf]; simp [h]
      simp [List.find?_cons_of_neg, h, hf, hfa, ih]

theorem find?_update {α : Type} (key : α → Nat) (l : List α) (k : Nat)
    (f : α → α) (hf : ∀ a, key (f a) = key a) (x : α)
    (h : l.find? (fun a => key a == k) = some x) :
    (l.map (fun a => if key a == k then f a else a)).find? (fun a => key a == k)
      = some (f x) := by
  have hpres : ∀ a, (fun a => key a == k) (if key a == k then f a else a)
      = (fun a => key a == k) a := by
    intro a
    by_cases ha : key a == k
    · simp [ha, hf]
    · simp [ha]
  rw [find?_map_of_pres l _ _ hpres, h]
  have hx := List.find?_some h
  simp only [Option.map_some']
  rw [if_pos hx]

theorem find?_update_other {α : Type} (key : α → Nat) (l : List α) (k k' : Nat)
    (hne : k ≠ k') (f : α → α) (hf : ∀ a, key (f a) = key a) (x : α)
    (h : l.find? (fun a => key a == k) = some x) :
    (l.map (fun a => if key a == k' then f a else a)).find? (fun a => key a == k)
      = some x := by
  have hpres : ∀ a, (fun a => key a == k) (if key a == k' then f a else a)
      = (fun a => key a == k) a := by
    intro a
    by_cases ha : key a == k'
    · simp [ha, hf]
    · simp [ha]
  rw [find?_map_of_pres l _ _ hpres, h]
  have hx := List.find?_some h
  have hxk : key x = k := by simpa using hx
  simp only [Option.map_some']
  rw [if_neg (by simp [hxk]; omega)]

/-! ### Rollup calculator: frame lemmas -/

theorem calc_frame (db : DB) (objectiveId : Nat) :
    (calculateObjectiveProgress db objectiveId).1.key_results = db.key_results ∧
    (calculateObjectiveProgress db objectiveId).1.webhook_integrations
      = db.webhook_integrations ∧
    (calculateObjectiveProgress db objectiveId).1.webhook_events = db.webhook_events ∧
    (calculateObjectiveProgress db objectiveId).1.progress_updates = db.progress_updates ∧
    (calculateObjectiveProgress db objectiveId).1.comments = db.comments ∧
    (calculateObjectiveProgress db objectiveId).1.notifications = db.notifications := by
  unfold calculateObjectiveProgress
  cases h : db.objectives.find? (fun o => o.id == objectiveId) with
  | none => simp
  | some objective =>
    by_cases hk : (db.key_results.filter (fun kr => kr.objective_id == objectiveId)).length == 0
    · simp [hk]
    · simp [hk]

theorem calc_find_other (db : DB) (pid k : Nat) (hne : k ≠ pid) (x : Objective)
    (h : db.objectives.find? (fun o => o.id == k) = some x) :
    (calculateObjectiveProgress db pid).1.objectives.find? (fun o => o.id == k)
      = some x := by
  unfold calculateObjectiveProgress
  cases hp : db.objectives.find? (fun o => o.id == pid) with
  | none => simpa using h
  | some objective =>
    by_cases hk : ((db.key_results.filter (fun kr => kr.objective_id == pid)).length == 0)
    · simp only [hk, reduceIte]
      exact find?_update_other Objective.id db.objectives k pid hne
        (fun o => { o with progress_percentage := some 0, current_value := some 0 })
        (fun a => rfl) x h
    · have hk' : ((db.key_results.filter (fun kr => kr.objective_id == pid)).length == 0)
          = false := by simpa using hk
      simp only [hk', Bool.false_eq_true, reduceIte]
      exact find?_update_other Objective.id db.objectives k pid hne
        (fun o => { o with
          progress_percentage := some
            ((db.key_results.filter (fun kr => kr.objective_id == pid)).foldl
                (fun sum kr => sum + jsOr kr.progress_percentage 0) 0
              / ((db.key_results.filter (fun kr => kr.objective_id == pid)).length : ℚ)),
          current_value := some
            ((db.key_results.filter (fun kr => kr.objective_id == pid)).foldl
                (fun sum kr => sum + jsOr kr.progress_percentage 0) 0
              / ((db.key_results.filter (fun kr => kr.objective_id == pid)).length : ℚ) / 100
              * jsOr objective.target_value 100) })
        (fun a => rfl) x h

/-! ### Claim C2 and C4: the rollup calculation -/

/-- Modelled from the spec: the unweighted arithmetic mean of the key results'
`progress_percentage` values (`null` contributing `0`, as in the code's
`kr.progress_percentage || 0`). -/
def specMeanProgress (krs : List KeyResult) : ℚ :=
  ((krs.map (fun kr => jsOr kr.progress_percentage 0)).sum) / (krs.length : ℚ)

/-- **C2** (amended): for an objective with at least one key result the rollup
persists `progress_percentage` equal to the arithmetic mean of the key
results' `progress_percentage` and `current_value = (mean/100) ×
target_value`, where `target_value` falls back to `100` only when it is unset
(`null`) or exactly `0` (JavaScript `target_value || 100`) — not for negative
values. -/
theorem rollup_persists_mean_and_derived_current (db : DB) (objectiveId : Nat)
    (obj : Objective)
    (hobj : db.objectives.find? (fun o => o.id == objectiveId) = some obj)
    (hkr : db.key_results.filter (fun kr => kr.objective_id == objectiveId) ≠ []) :
    (calculateObjectiveProgress db objectiveId).2
      = specMeanProgress (db.key_results.filter (fun kr => kr.objective_id == objectiveId)) ∧
    (calculateObjectiveProgress db objectiveId).1.objectives.find?
        (fun o => o.id == objectiveId)
      = some { obj with
          progress_percentage := some (specMeanProgress
            (db.key_results.filter (fun kr => kr.objective_id == objectiveId))),
          current_value := some (specMeanProgress
              (db.key_results.filter (fun kr => kr.objective_id == objectiveId)) / 100
            * jsOr obj.target_value 100) } := by
  unfold calculateObjectiveProgress
  rw [hobj]
  have hlen : ((db.key_results.filter (fun kr => kr.objective_id == objectiveId)).length == 0)
      = false := by
    simp [List.length_eq_zero, hkr]
  simp only [hlen, Bool.false_eq_true, reduceIte]
  have hsum : (db.key_results.filter (fun kr => kr.objective_id == objectiveId)).foldl
        (fun sum kr => sum + jsOr kr.progress_percentage 0) 0
      = ((db.key_results.filter (fun kr => kr.objective_id == objectiveId)).map
          (fun kr => jsOr kr.progress_percentage 0)).sum := by
    rw [List.sum_eq_foldl, List.foldl_map]
  constructor
  · simp only [specMeanProgress]
    rw [hsum]
  · simp only [specMeanProgress, ← hsum]
    exact find?_update Objective.id db.objectives objectiveId
      (fun o => { o with
        progress_percentage := some
          ((db.key_results.filter (fun kr => kr.objective_id == objectiveId)).foldl
              (fun sum kr => sum + jsOr kr.progress_percentage 0) 0
            / ((db.key_results.filter (fun kr => kr.objective_id == objectiveId)).length : ℚ)),
        current_value := some
          ((db.key_results.filter (fun kr => kr.objective_id == objectiveId)).foldl
              (fun sum kr => sum + jsOr kr.progress_percentage 0) 0
            / ((db.key_results.filter (fun kr => kr.objective_id == objectiveId)).length : ℚ)
            / 100 * jsOr obj.target_value 100) })
      (fun a => rfl) obj hobj

def objW2 : Objective := ⟨1, none, none, some 200, some 0, some 0⟩

def dbW2 : DB := ⟨[objW2], [⟨1, some 30⟩, ⟨1, some 60⟩], [], [], [], [], [], [], [], []⟩

/-- Witness for C2 (amended): a concrete objective with two key results. -/
theorem rollup_persists_mean_witness :
    dbW2.objectives.find? (fun o => o.id == 1) = some objW2 ∧
    dbW2.key_results.filter (fun kr => kr.objective_id == 1) ≠ [] ∧
    ((calculateObjectiveProgress dbW2 1).2
        = specMeanProgress (dbW2.key_results.filter (fun kr => kr.objective_id == 1)) ∧
      (calculateObjectiveProgress dbW2 1).1.objectives.find? (fun o => o.id == 1)
        = some { objW2 with
            progress_percentage := some (specMeanProgress
              (dbW2.key_results.filter (fun kr => kr.objective_id == 1))),
            current_value := some (specMeanProgress
                (dbW2.key_results.filter (fun kr => kr.objective_id == 1)) / 100
              * jsOr objW2.target_value 100) }) :=
  ⟨by decide, by decide,
    rollup_persists_mean_and_derived_current dbW2 1 objW2 (by decide) (by decide)⟩

def objC2 : Objective := ⟨1, none, none, some (-5), some 0, some 0⟩

def dbC2 : DB := ⟨[objC2], [⟨1, some 50⟩], [], [], [], [], [], [], [], []⟩

/-- Counterexample to **C2** as frozen: for an objective whose `target_value`
is `-5` (which is `≤ 0`) and a single key result at `50`, the claim demands
`current_value = (50/100) × 100 = 50` (default target `100` because
`target_value ≤ 0`), but the code's `target_value || 100` keeps `-5` and
persists `current_value = -5/2`. -/
theorem rollup_negative_target_not_defaulted :
    (dbC2.objectives.find? (fun o => o.id == 1)).map Objective.target_value
      = some (some (-5)) ∧
    (-5 : ℚ) ≤ 0 ∧
    specMeanProgress (dbC2.key_results.filter (fun kr => kr.objective_id == 1)) = 50 ∧
    ((calculateObjectiveProgress dbC2 1).1.objectives.find? (fun o => o.id == 1)).map
        Objective.current_value = some (some (-5/2)) ∧
    some (some (-5/2 : ℚ)) ≠ some (some ((50 : ℚ) / 100 * 100)) := by
  refine ⟨by decide, by norm_num, by norm_num [specMeanProgress, dbC2, jsOr], ?_, by norm_num⟩
  norm_num [calculateObjectiveProgress, dbC2, objC2, jsOr, List.find?, List.filter]

/-- **C4**: the rollup on an existing objective with zero key results persists
`progress_percentage = 0` and `current_value = 0` (and returns `0`); the
rollup on an id that matches no objective returns `0` and leaves the database
untouched. -/
theorem rollup_no_keyresults_resets_and_missing_noop (db : DB) (objectiveId : Nat) :
    (∀ obj, db.objectives.find? (fun o => o.id == objectiveId) = some obj →
      db.key_results.filter (fun kr => kr.objective_id == objectiveId) = [] →
      (calculateObjectiveProgress db objectiveId).2 = 0 ∧
      (calculateObjectiveProgress db objectiveId).1.objectives.find?
          (fun o => o.id == objectiveId)
        = some { obj with progress_percentage := some 0, current_value := some 0 }) ∧
    (db.objectives.find? (fun o => o.id == objectiveId) = none →
      calculateObjectiveProgress db objectiveId = (db, 0)) := by
  constructor
  · intro obj hobj hfilter
    unfold calculateObjectiveProgress
    rw [hobj, hfilter]
    simp only [List.length_nil, Nat.zero_eq, beq_self_eq_true, reduceIte]
    refine ⟨trivial, ?_⟩
    exact find?_update Objective.id db.objectives objectiveId
      (fun o => { o with progress_percentage := some 0, current_value := some 0 })
      (fun a => rfl) obj hobj
  · intro hnone
    unfold calculateObjectiveProgress
    rw [hnone]

def objW4 : Objective := ⟨1, none, none, some 100, some 40, some 40⟩

def dbW4 : DB := ⟨[objW4], [], [], [], [], [], [], [], [], []⟩

/-- Witness for C4: a concrete objective with no key results, and a missing
objective id. -/
theorem rollup_no_keyresults_witness :
    (dbW4.objectives.find? (fun o => o.id == 1) = some objW4 ∧
      dbW4.key_results.filter (fun kr => kr.objective_id == 1) = [] ∧
      ((calculateObjectiveProgress dbW4 1).2 = 0 ∧
        (calculateObjectiveProgress dbW4 1).1.objectives.find? (fun o => o.id == 1)
          = some { objW4 with progress_percentage := some 0, current_value := some 0 })) ∧
    (dbW4.objectives.find? (fun o => o.id == 2) = none ∧
      calculateObjectiveProgress dbW4 2 = (dbW4, 0)) :=
  ⟨⟨by decide, by decide,
      (rollup_no_keyresults_resets_and_missing_noop dbW4 1).1 objW4 (by decide) (by decide)⟩,
    ⟨by decide, (rollup_no_keyresults_resets_and_missing_noop dbW4 2).2 (by decide)⟩⟩

/-! ### Notification fan-out (`notifyObjectiveStakeholders`) -/

/-- Insertion into the JavaScript `Set` of user ids, which preserves insertion
order and ignores duplicates. -/
def addUnique (l : List Nat) (x : Nat) : List Nat :=
  if x ∈ l then l else l ++ [x]

/-- One guarded `userIds.add` step of the fan-out: a `null` user id is
skipped, and the excluded actor is skipped (`uid && uid !== excludeUserId`). -/
def addStakeholderStep (excl : Option Nat) (acc : List Nat) (uid : Option Nat) :
    List Nat :=
  match uid with
  | some uid => if some uid ≠ excl then addUnique acc uid else acc
  | none => acc

/-- The fan-out's `forEach` loop over a column of (nullable) user ids. -/
def addStakeholderIds (excl : Option Nat) (ids : List (Option Nat))
    (acc : List Nat) : List Nat :=
  ids.foldl (addStakeholderStep excl) acc

/-- `createNotification`: inserts one notification row (the claims do not
concern the `comment_id` / `progress_update_id` references, omitted here). -/
def createNotification (db : DB) (userId : Nat) (type title message : String)
    (objectiveId : Option Nat) : DB :=
  { db with notifications := db.notifications ++
      [⟨userId, type, title, message, objectiveId, false⟩] }

/-- `notifyObjectiveStakeholders`: owner ∪ contributors ∪ subscribers,
deduplicated via a `Set`, minus the excluded actor; one notification per
member. -/
def notifyObjectiveStakeholders (db : DB) (objectiveId : Nat)
    (type title message : String) (excludeUserId : Option Nat) : DB :=
  match db.objectives.find? (fun o => o.id == objectiveId) with
  | none => db
  | some objective =>
    let contributors := db.objective_contributors.filter
      (fun c => c.objective_id == objectiveId)
    let subscriptions := db.objective_subscriptions.filter
      (fun s => s.objective_id == objectiveId)
    let userIds : List Nat :=
      addStakeholderIds excludeUserId (subscriptions.map (fun s => s.user_id))
        (addStakeholderIds excludeUserId (contributors.map (fun c => c.user_id))
          (addStakeholderIds excludeUserId [objective.owner_id] []))
    userIds.foldl (fun db userId =>
      createNotification db userId type title message (some objectiveId)) db

theorem mem_addUnique (l : List Nat) (x u : Nat) :
    u ∈ addUnique l x ↔ u ∈ l ∨ u = x := by
  unfold addUnique
  by_cases h : x ∈ l
  · rw [if_pos h]
    constructor
    · exact Or.inl
    · rintro (hu | rfl) <;> assumption
  · rw [if_neg h]
    simp

theorem nodup_addUnique (l : List Nat) (x : Nat) (h : l.Nodup) :
    (addUnique l x).Nodup := by
  unfold addUnique
  by_cases hx : x ∈ l
  · rwa [if_pos hx]
  · rw [if_neg hx]
    simp [List.nodup_append, h, hx]

theorem mem_addStakeholderStep (excl : Option Nat) (acc : List Nat)
    (uid : Option Nat) (u : Nat) :
    u ∈ addStakeholderStep excl acc uid
      ↔ u ∈ acc ∨ (uid = some u ∧ some u ≠ excl) := by
  cases uid with
  | none => simp [addStakeholderStep]
  | some v =>
    show u ∈ (if some v ≠ excl then addUnique acc v else acc)
      ↔ u ∈ acc ∨ (some v = some u ∧ some u ≠ excl)
    by_cases hv : some v ≠ excl
    · rw [if_pos hv]
      rw [mem_addUnique]
      constructor
      · rintro (h | rfl)
        · exact Or.inl h
        · exact Or.inr ⟨rfl, hv⟩
      · rintro (h | ⟨heq, hne⟩)
        · exact Or.inl h
        · exact Or.inr (by injection heq with h; exact h.symm)
    · rw [if_neg hv]
      have hv' : some v = excl := not_not.mp (by simpa using hv)
      constructor
      · exact Or.inl
      · rintro (h | ⟨heq, hne⟩)
        · exact h
        · exact absurd (heq ▸ hv') hne

theorem nodup_addStakeholderStep (excl : Option Nat) (acc : List Nat)
    (uid : Option Nat) (h : acc.Nodup) : (addStakeholderStep excl acc uid).Nodup := by
  cases uid with
  | none => simpa [addStakeholderStep]
  | some v =>
    show (if some v ≠ excl then addUnique acc v else acc).Nodup
    by_cases hv : some v ≠ excl
    · rw [if_pos hv]; exact nodup_addUnique acc v h
    · rwa [if_neg hv]

theorem mem_addStakeholderIds (excl : Option Nat) (ids : List (Option Nat)) :
    ∀ (acc : List Nat) (u : Nat),
      u ∈ addStakeholderIds excl ids acc
        ↔ u ∈ acc ∨ (some u ∈ ids ∧ some u ≠ excl) := by
  induction ids with
  | nil => intro acc u; simp [addStakeholderIds]
  | cons uid ids ih =>
    intro acc u
    have hstep : addStakeholderIds excl (uid :: ids) acc
        = addStakeholderIds excl ids (addStakeholderStep excl acc uid) := rfl
    rw [hstep, ih, mem_addStakeholderStep]
    simp only [List.mem_cons]
    constructor
    · rintro ((h | ⟨heq, hne⟩) | ⟨hm, hne⟩)
      · exact Or.inl h
      · exact Or.inr ⟨Or.inl heq.symm, hne⟩
      · exact Or.inr ⟨Or.inr hm, hne⟩
    · rintro (h | ⟨(heq | hm), hne⟩)
      · exact Or.inl (Or.inl h)
      · exact Or.inl (Or.inr ⟨heq.symm, hne⟩)
      · exact Or.inr ⟨hm, hne⟩

theorem nodup_addStakeholderIds (excl : Option Nat) (ids : List (Option Nat)) :
    ∀ acc : List Nat, acc.Nodup → (addStakeholderIds excl ids acc).Nodup := by
  induction ids with
  | nil => intro acc h; simpa [addStakeholderIds]
  | cons uid ids ih =>
    intro acc h
    exact ih (addStakeholderStep excl acc uid) (nodup_addStakeholderStep excl acc uid h)

theorem notify_fold_notifications (userIds : List Nat) :
    ∀ (db : DB) (type title message : String) (objectiveId : Option Nat),
      (userIds.foldl (fun db userId =>
          createNotification db userId type title message objectiveId) db).notifications
        = db.notifications
          ++ userIds.map (fun u => ⟨u, type, title, message, objectiveId, false⟩) := by
  induction userIds with
  | nil => intro db t ti m oid; simp
  | cons u userIds ih =>
    intro db t ti m oid
    simp only [List.foldl_cons, List.map_cons]
    rw [ih]
    simp [createNotification]

/-- **C7**: the fan-out creates exactly one notification per member of
({owner} ∪ contributors ∪ subscribers) minus the excluded actor, duplicates
removed; in particular an owner who is the actor gets none while the other
stakeholders still get theirs. -/
theorem notify_stakeholders_exactly_once (db : DB) (objectiveId : Nat)
    (type title message : String) (excludeUserId : Option Nat) (obj : Objective)
    (hobj : db.objectives.find? (fun o => o.id == objectiveId) = some obj)
    (u : Nat) :
    ((notifyObjectiveStakeholders db objectiveId type title message
        excludeUserId).notifications.drop db.notifications.length).countP
      (fun n => n.user_id == u)
    = if (obj.owner_id = some u
          ∨ (∃ c ∈ db.objective_contributors,
              c.objective_id = objectiveId ∧ c.user_id = some u)
          ∨ (∃ s ∈ db.objective_subscriptions,
              s.objective_id = objectiveId ∧ s.user_id = some u))
        ∧ some u ≠ excludeUserId
      then 1 else 0 := by
  unfold notifyObjectiveStakeholders
  rw [hobj]
  simp only [notify_fold_notifications, List.drop_left, List.countP_map]
  have hnodup := nodup_addStakeholderIds excludeUserId
    ((db.objective_subscriptions.filter
        (fun s => s.objective_id == objectiveId)).map (fun s => s.user_id))
    (addStakeholderIds excludeUserId
      ((db.objective_contributors.filter
          (fun c => c.objective_id == objectiveId)).map (fun c => c.user_id))
      (addStakeholderIds excludeUserId [obj.owner_id] []))
    (nodup_addStakeholderIds excludeUserId _ _
      (nodup_addStakeholderIds excludeUserId _ _ List.nodup_nil))
  have hchar : ∀ v : Nat,
      v ∈ addStakeholderIds excludeUserId
        ((db.objective_subscriptions.filter
            (fun s => s.objective_id == objectiveId)).map (fun s => s.user_id))
        (addStakeholderIds excludeUserId
          ((db.objective_contributors.filter
              (fun c => c.objective_id == objectiveId)).map (fun c => c.user_id))
          (addStakeholderIds excludeUserId [obj.owner_id] []))
      ↔ (obj.owner_id = some v
          ∨ (∃ c ∈ db.objective_contributors,
              c.objective_id = objectiveId ∧ c.user_id = some v)
          ∨ (∃ s ∈ db.objective_subscriptions,
              s.objective_id = objectiveId ∧ s.user_id = some v))
        ∧ some v ≠ excludeUserId := by
    intro v
    rw [mem_addStakeholderIds, mem_addStakeholderIds, mem_addStakeholderIds]
    simp only [List.mem_map, List.mem_filter, List.mem_singleton,
      List.not_mem_nil, false_or, beq_iff_eq]
    constructor
    · rintro ((⟨ho, hne⟩ | ⟨⟨c, ⟨hc, hco⟩, hcu⟩, hne⟩) | ⟨⟨s, ⟨hs, hso⟩, hsu⟩, hne⟩)
      · exact ⟨Or.inl ho.symm, hne⟩
      · exact ⟨Or.inr (Or.inl ⟨c, hc, hco, hcu⟩), hne⟩
      · exact ⟨Or.inr (Or.inr ⟨s, hs, hso, hsu⟩), hne⟩
    · rintro ⟨ho | ⟨c, hc, hco, hcu⟩ | ⟨s, hs, hso, hsu⟩, hne⟩
      · exact Or.inl (Or.inl ⟨ho.symm, hne⟩)
      · exact Or.inl (Or.inr ⟨⟨c, ⟨hc, hco⟩, hcu⟩, hne⟩)
      · exact Or.inr ⟨⟨s, ⟨hs, hso⟩, hsu⟩, hne⟩
  by_cases hcond : (obj.owner_id = some u
        ∨ (∃ c ∈ db.objective_contributors,
            c.objective_id = objectiveId ∧ c.user_id = some u)
        ∨ (∃ s ∈ db.objective_subscriptions,
            s.objective_id = objectiveId ∧ s.user_id = some u))
      ∧ some u ≠ excludeUserId
  · rw [if_pos hcond]
    exact List.count_eq_one_of_mem hnodup ((hchar u).mpr hcond)
  · rw [if_neg hcond]
    exact List.count_eq_zero_of_not_mem (fun hm => hcond ((hchar u).mp hm))

def objW7 : Objective := ⟨1, some 1, none, none, none, none⟩

def dbW7 : DB :=
  ⟨[objW7], [], [], [], [], [], [⟨1, some 2⟩], [⟨1, some 3⟩], [], []⟩

/-- Witness for C7: owner `1` is the actor and gets no "comment"
notification; contributor `2` and subscriber `3` each get exactly one. -/
theorem notify_stakeholders_witness :
    dbW7.objectives.find? (fun o => o.id == 1) = some objW7 ∧
    ((notifyObjectiveStakeholders dbW7 1 "comment" "t" "m"
        (some 1)).notifications.drop dbW7.notifications.length).countP
      (fun n => n.user_id == 1) = 0 ∧
    ((notifyObjectiveStakeholders dbW7 1 "comment" "t" "m"
        (some 1)).notifications.drop dbW7.notifications.length).countP
      (fun n => n.user_id == 2) = 1 ∧
    ((notifyObjectiveStakeholders dbW7 1 "comment" "t" "m"
        (some 1)).notifications.drop dbW7.notifications.length).countP
      (fun n => n.user_id == 3) = 1 :=
  ⟨by decide,
   by rw [notify_stakeholders_exactly_once dbW7 1 "comment" "t" "m" (some 1) objW7
        (by decide) 1, if_neg (by decide)],
   by rw [notify_stakeholders_exactly_once dbW7 1 "comment" "t" "m" (some 1) objW7
        (by decide) 2, if_pos (by decide)],
   by rw [notify_stakeholders_exactly_once dbW7 1 "comment" "t" "m" (some 1) objW7
        (by decide) 3, if_pos (by decide)]⟩

/-! ### Mention parsing and resolution (`parseMentions`,
`getUserIdsFromMentions`) -/

/-- The mention-character class of the regex `@([^\s@]+)`: any character that
is neither whitespace nor `@`. -/
def isMentionChar (c : Char) : Bool := !c.isWhitespace && c != '@'

/-- The successive captured groups of the global regex `@([^\s@]+)` over the
comment text: after each `@`, the maximal nonempty run of non-whitespace,
non-`@` characters.  (The `trim()` the code applies to each match is the
identity here, because the captured characters exclude whitespace.) -/
def parseMentionsAux : List Char → List String
  | [] => []
  | c :: rest =>
    if c = '@' then
      (let tok := rest.takeWhile isMentionChar
       if tok.isEmpty then parseMentionsAux rest
       else String.mk tok :: parseMentionsAux (rest.drop tok.length))
    else parseMentionsAux rest
termination_by l => l.length
decreasing_by
  all_goals simp [List.length_drop]
  all_goals omega

/-- `parseMentions`: extract the `@`-tokens of a comment text. -/
def parseMentions (content : String) : List String := parseMentionsAux content.data

/-- JavaScript `toLowerCase`, modelled characterwise (faithful on ASCII,
which is what names/emails and the claims exercise). -/
def lowerStr (s : String) : String := String.mk (s.data.map Char.toLower)

/-- The `users.find(...)` predicate inside `getUserIdsFromMentions`: the first
user whose name or email equals the mention, case-insensitively. -/
def mentionLookup (users : List User) (mention : String) : Option User :=
  users.find? (fun u =>
    lowerStr u.name == lowerStr mention || lowerStr u.email == lowerStr mention)

/-- `getUserIdsFromMentions`: empty input short-circuits to `[]`; otherwise
resolve each mention via `mentionLookup`, collect the ids, and deduplicate
(JS `new Set`, first occurrence kept). -/
def getUserIdsFromMentions (users : List User) (mentions : List String) :
    List Nat :=
  if mentions.isEmpty then []
  else
    (mentions.foldl (fun userIds mention =>
        match mentionLookup users mention with
        | some u => userIds ++ [u.id]
        | none => userIds) []).foldl addUnique []

/-- **C8**: an `@`-token of a comment resolves to a user exactly when some
user's full name or email equals the token case-insensitively, and any
resolved user satisfies that exact (not prefix/substring) equality. -/
theorem mention_resolution_exact_case_insensitive (users : List User)
    (content tok : String) (htok : tok ∈ parseMentions content) :
    ((mentionLookup users tok).isSome = true
      ↔ ∃ u ∈ users,
          lowerStr u.name = lowerStr tok ∨ lowerStr u.email = lowerStr tok) ∧
    ∀ u, mentionLookup users tok = some u →
      u ∈ users ∧ (lowerStr u.name = lowerStr tok ∨ lowerStr u.email = lowerStr tok) := by
  constructor
  · rw [mentionLookup, List.find?_isSome]
    simp
  · intro u hu
    refine ⟨List.mem_of_find?_eq_some hu, ?_⟩
    have := List.find?_some hu
    simpa using this

def usersW8 : List User := [⟨1, "alice", "alice@example.com"⟩]

/-- Witness for C8: `@Alice` resolves against a user named `"alice"`
(case-insensitive exact match), and does not resolve against a user named
`"alicesmith"` (no prefix matching). -/
theorem mention_resolution_witness :
    "Alice" ∈ parseMentions "hi @Alice" ∧
    mentionLookup usersW8 "Alice" = some ⟨1, "alice", "alice@example.com"⟩ ∧
    mentionLookup [⟨2, "alicesmith", "smith@example.com"⟩] "Alice" = none ∧
    (((mentionLookup usersW8 "Alice").isSome = true
        ↔ ∃ u ∈ usersW8,
            lowerStr u.name = lowerStr "Alice" ∨ lowerStr u.email = lowerStr "Alice") ∧
      ∀ u, mentionLookup usersW8 "Alice" = some u →
        u ∈ usersW8
          ∧ (lowerStr u.name = lowerStr "Alice" ∨ lowerStr u.email = lowerStr "Alice")) :=
  ⟨by simp [parseMentions, parseMentionsAux, isMentionChar, List.takeWhile],
   by decide, by decide,
   mention_resolution_exact_case_insensitive usersW8 "hi @Alice" "Alice"
     (by simp [parseMentions, parseMentionsAux, isMentionChar, List.takeWhile])⟩

/-! ### Webhook signature verification (`verifyWebhookSignature`) -/

/-- `crypto.timingSafeEqual` over the UTF-8 buffers of two strings: throws
(`ERR_CRYPTO_TIMING_SAFE_EQUAL_LENGTH`) when the byte lengths differ,
otherwise compares the contents.  Equal UTF-8 encodings mean equal strings,
so equal-length content comparison is string equality. -/
def timingSafeEqual (a b : String) : Except String Bool :=
  if a.utf8ByteSize ≠ b.utf8ByteSize then
    Except.error "ERR_CRYPTO_TIMING_SAFE_EQUAL_LENGTH"
  else Except.ok (a == b)

/-- `verifyWebhookSignature(payload, signature, secret)`: the HMAC-SHA256
primitive is abstracted as the argument `hmacHex : secret → payloadString →
hex digest` (a cryptographic hash is not repository code); the `try/catch`
turns a `timingSafeEqual` length-mismatch throw into `false`. -/
def verifyWebhookSignature (hmacHex : String → String → String)
    (payload signature secret : String) : Bool :=
  let calculatedSignature := hmacHex secret payload
  match timingSafeEqual signature calculatedSignature with
  | Except.ok b => b
  | Except.error _ => false

/-- **C10**: when the supplied signature's UTF-8 byte length differs from the
computed digest's, `timingSafeEqual` throws, the `catch` swallows the
exception, and `verifyWebhookSignature` returns `false` rather than
propagating. -/
theorem verify_signature_false_on_length_mismatch
    (hmacHex : String → String → String) (payload sig secret : String)
    (hlen : sig.utf8ByteSize ≠ (hmacHex secret payload).utf8ByteSize) :
    timingSafeEqual sig (hmacHex secret payload)
      = Except.error "ERR_CRYPTO_TIMING_SAFE_EQUAL_LENGTH" ∧
    verifyWebhookSignature hmacHex payload sig secret = false := by
  have h1 : timingSafeEqual sig (hmacHex secret payload)
      = Except.error "ERR_CRYPTO_TIMING_SAFE_EQUAL_LENGTH" := by
    rw [timingSafeEqual, if_pos hlen]
  refine ⟨h1, ?_⟩
  simp only [verifyWebhookSignature, h1]

/-- A stand-in HMAC-SHA256 hex digest (the digest of the empty string), used
only to witness C10 at a concrete input. -/
def hmacHexW : String → String → String :=
  fun _ _ => "e3b0c44298fc1c149afbf4c8996fb92427ae41e4649b934ca495991b7852b855"

/-- Witness for C10: a 5-byte signature against the 64-byte hex digest. -/
theorem verify_signature_false_witness :
    "short".utf8ByteSize ≠ (hmacHexW "secret" "payload").utf8ByteSize ∧
    (timingSafeEqual "short" (hmacHexW "secret" "payload")
        = Except.error "ERR_CRYPTO_TIMING_SAFE_EQUAL_LENGTH" ∧
      verifyWebhookSignature hmacHexW "payload" "short" "secret" = false) :=
  ⟨by decide,
   verify_signature_false_on_length_mismatch hmacHexW "payload" "short" "secret"
     (by decide)⟩

/-! ### Webhook receiver (`POST /api/webhooks/:webhook_id`)

The handler is modelled from the signature gate through persistence.  The
result of `applyFieldMapping` is an explicit input (`MappedData`): the claims
quantify over what the field mapping yielded, and the handler consumes the
mapped values numerically. -/

/-- JavaScript `str.replace(pat, '')` with a plain string pattern: removes the
first occurrence of `pat` (used for the `sha256=` prefix of GitHub-style
signature headers). -/
def replaceFirstList (pat : List Char) : List Char → List Char
  | [] => []
  | c :: rest =>
    if pat.isPrefixOf (c :: rest) then (c :: rest).drop pat.length
    else c :: replaceFirstList pat rest

/-- String wrapper for `replaceFirstList`. -/
def replaceFirstStr (s pat : String) : String :=
  String.mk (replaceFirstList pat.data s.data)

/-- Positional row update, standing in for `UPDATE ... WHERE id = <uuid>` on
the webhook-event row inserted earlier in the same request (uuids are unique,
so the row is identified by its position). -/
def updateAt {α : Type} (n : Nat) (f : α → α) : List α → List α
  | [] => []
  | a :: rest =>
    match n with
    | 0 => f a :: rest
    | Nat.succ m => a :: updateAt m f rest

/-- The result of `applyFieldMapping` restricted to the four target fields
the handler reads; `none` models an unmapped/absent field (`undefined`). -/
structure MappedData where
  progress_percentage : Option ℚ := none
  current_value : Option ℚ := none
  target_value : Option ℚ := none
  comment : Option String := none
deriving Repr, DecidableEq

/-- The handler's `updates` object: a field is present only once set. -/
structure Updates where
  progress_percentage : Option ℚ := none
  current_value : Option ℚ := none
  target_value : Option ℚ := none
deriving Repr, DecidableEq

/-- `Object.keys(updates).length > 0` (before `updated_at` is added). -/
def hasUpdates (u : Updates) : Bool :=
  u.progress_percentage.isSome || u.current_value.isSome || u.target_value.isSome

/-- `UPDATE objectives SET <fields of u> WHERE id = ?`, applied to one row. -/
def applyUpdates (u : Updates) (o : Objective) : Objective :=
  { o with
    progress_percentage := match u.progress_percentage with
      | some p => some p
      | none => o.progress_percentage,
    current_value := match u.current_value with
      | some c => some c
      | none => o.current_value,
    target_value := match u.target_value with
      | some t => some t
      | none => o.target_value }

/-- The direct payload text fields the handler falls back to when no comment
was mapped. -/
structure PayloadText where
  comment : Option String := none
  message : Option String := none
  note : Option String := none
  notes : Option String := none
deriving Repr, DecidableEq

/-- The `webhookComment` if/else-if chain (JavaScript truthiness: `null` and
`""` are falsy; `payload.note || payload.notes` picks the first truthy). -/
def selectWebhookComment (mappedData : MappedData) (payload : PayloadText) :
    Option String :=
  if jsTruthyStr mappedData.comment then mappedData.comment
  else if jsTruthyStr payload.comment then payload.comment
  else if jsTruthyStr payload.message then payload.message
  else if jsTruthyStr payload.note || jsTruthyStr payload.notes then
    (if jsTruthyStr payload.note then payload.note else payload.notes)
  else none

/-- The value-update-and-clamping stage (source lines: the three
`mappedData.*` blocks): returns `(updates, valueBefore, valueAfter)`.
`objective.target_value > 0` on the raw nullable column is `0 < jsOr
objective.target_value 0` (`null > 0` is false in JavaScript). -/
def webhookUpdates (objective : Objective) (mappedData : MappedData) :
    Updates × ℚ × ℚ :=
  let valueBefore := jsOr objective.current_value 0
  let u1 : Updates :=
    match mappedData.progress_percentage with
    | some p => { progress_percentage := some (max 0 (min 100 p)) }
    | none => {}
  let step2 : Updates × ℚ :=
    match mappedData.current_value with
    | some cv =>
      let u := { u1 with current_value := some cv }
      if 0 < jsOr objective.target_value 0 then
        ({ u with
            progress_percentage :=
              some (min 100 (cv / jsOr objective.target_value 0 * 100)) }, cv)
      else (u, cv)
    | none => (u1, valueBefore)
  let u3 : Updates :=
    match mappedData.target_value with
    | some tv =>
      let u := { step2.1 with target_value := some tv }
      let current := match step2.1.current_value with
        | some c => c
        | none => jsOr objective.current_value 0
      if 0 < tv then
        { u with progress_percentage := some (min 100 (current / tv * 100)) }
      else u
    | none => step2.1
  (u3, valueBefore, step2.2)

/-- The narrative comment's changed-field lines (`Current Value: a → b`,
`Target Value: a → b`, `Progress: r1% → r2%`, with `Math.round` as `round`). -/
def buildChangedFields (objective : Objective) (u : Updates) : List String :=
  let previousCurrent := jsOr objective.current_value 0
  let previousTarget := jsOr objective.target_value 0
  let previousProgress := jsOr objective.progress_percentage 0
  (match u.current_value with
   | some cv => [s!"Current Value: {previousCurrent} → {cv}"]
   | none => []) ++
  (match u.target_value with
   | some tv => [s!"Target Value: {previousTarget} → {tv}"]
   | none => []) ++
  (match u.progress_percentage with
   | some p =>
     let r1 := round previousProgress
     let r2 := round p
     [s!"Progress: {r1}% → {r2}%"]
   | none => [])

/-- The comment body: a webhook-supplied comment (never `some ""`, by
construction of `selectWebhookComment`) is used as prefix, otherwise a
generated default. -/
def buildCommentContent (webhookComment : Option String)
    (changedFields : List String) (valueBefore valueAfter : ℚ)
    (u : Updates) : String :=
  let changes := String.intercalate "\n" changedFields
  match webhookComment with
  | some wc =>
    if changedFields.isEmpty then wc
    else s!"{wc}\n\nChanges:\n{changes}"
  | none =>
    if changedFields.isEmpty then
      (match u.progress_percentage with
       | some p =>
         let r := round p
         s!"Progress updated via webhook: {valueBefore} → {valueAfter} ({r}% complete)"
       | none => s!"Progress updated via webhook: {valueBefore} → {valueAfter}")
    else s!"Progress updated via webhook:\n{changes}"

/-- The handler's possible HTTP responses. -/
inductive WebhookResponse where
  | webhookNotFound
  | webhookNotActive
  | invalidSignature
  | objectiveNotFound
  | processed (updates : Updates)
deriving Repr, DecidableEq

/-- HTTP status code of each response. -/
def statusCode : WebhookResponse → Nat
  | .webhookNotFound => 404
  | .webhookNotActive => 403
  | .invalidSignature => 401
  | .objectiveNotFound => 404
  | .processed _ => 200

/-- Stages 3–8 of the webhook pipeline: event logging, objective resolution,
value update, persistence (objective row, `ProgressUpdate`, `Comment`,
parent rollup), event completion, failure-counter reset. -/
def processWebhook (db : DB) (webhookIntegration : WebhookIntegration)
    (rawPayload headers : String) (mappedData : MappedData)
    (payloadText : PayloadText) : DB × WebhookResponse :=
  let eventIdx := db.webhook_events.length
  let db1 : DB := { db with webhook_events := db.webhook_events ++
    [⟨webhookIntegration.id, rawPayload, headers, false, none, none, none⟩] }
  match db1.objectives.find? (fun o => o.id == webhookIntegration.objective_id) with
  | none =>
    let failedEvents :=
      updateAt eventIdx
        (fun e => { e with
          processed := true, error_message := some "Objective not found" })
        db1.webhook_events
    ({ db1 with webhook_events := failedEvents }, WebhookResponse.objectiveNotFound)
  | some objective =>
    let webhookComment := selectWebhookComment mappedData payloadText
    let r := webhookUpdates objective mappedData
    let updates := r.1
    let valueBefore := r.2.1
    let valueAfter := r.2.2
    let db2 : DB :=
      if hasUpdates updates then
        let dbU : DB := { db1 with objectives := db1.objectives.map (fun o =>
          if o.id == webhookIntegration.objective_id then applyUpdates updates o
          else o) }
        let dbP : DB := { dbU with progress_updates := dbU.progress_updates ++
          [⟨webhookIntegration.objective_id, none, valueBefore, valueAfter,
            "Updated via webhook"⟩] }
        let changedFields := buildChangedFields objective updates
        let commentContent :=
          buildCommentContent webhookComment changedFields valueBefore valueAfter
            updates
        let dbC : DB := { dbP with comments := dbP.comments ++
          [⟨webhookIntegration.objective_id, none, commentContent⟩] }
        match objective.parent_objective_id with
        | some parentId => (calculateObjectiveProgress dbC parentId).1
        | none => dbC
      else db1
    let doneEvents :=
      updateAt eventIdx
        (fun e => { e with
          processed := true, value_before := some valueBefore,
          value_after := some valueAfter })
        db2.webhook_events
    let db3 : DB := { db2 with webhook_events := doneEvents }
    let resetIntegrations :=
      db3.webhook_integrations.map (fun w =>
        if w.id == webhookIntegration.id then { w with failure_count := 0 } else w)
    let db4 : DB := { db3 with webhook_integrations := resetIntegrations }
    (db4, WebhookResponse.processed updates)

/-- Stages 1–2 of the webhook pipeline: integration lookup, active check,
optional signature verification (with the `sha256=` prefix stripped), the
invalid-signature branch (failure counter increment, failed event row,
Unauthorized). -/
def webhookReceiver (hmacHex : String → String → String) (db : DB)
    (webhookId : Nat) (rawPayload headers : String)
    (signatureHeader : Option String) (mappedData : MappedData)
    (payloadText : PayloadText) : DB × WebhookResponse :=
  match db.webhook_integrations.find? (fun w => w.id == webhookId) with
  | none => (db, WebhookResponse.webhookNotFound)
  | some webhookIntegration =>
    if webhookIntegration.status ≠ "active" then (db, WebhookResponse.webhookNotActive)
    else
      match signatureHeader with
      | some sigHeader =>
        let signatureHash := replaceFirstStr sigHeader "sha256="
        if verifyWebhookSignature hmacHex rawPayload signatureHash
            webhookIntegration.webhook_secret then
          processWebhook db webhookIntegration rawPayload headers mappedData
            payloadText
        else
          let dbF : DB := { db with webhook_integrations :=
            db.webhook_integrations.map (fun w =>
              if w.id == webhookId then { w with failure_count := w.failure_count + 1 }
              else w) }
          ({ dbF with webhook_events := dbF.webhook_events ++
              [⟨webhookId, rawPayload, headers, false, some "Invalid signature",
                none, none⟩] }, WebhookResponse.invalidSignature)
      | none =>
        processWebhook db webhookIntegration rawPayload headers mappedData payloadText

theorem webhookReceiver_verified_ok (hmacHex : String → String → String)
    (db : DB) (webhookId : Nat) (rawPayload headers : String)
    (signatureHeader : Option String) (mappedData : MappedData)
    (payloadText : PayloadText) (wi : WebhookIntegration)
    (hwi : db.webhook_integrations.find? (fun w => w.id == webhookId) = some wi)
    (hactive : wi.status = "active")
    (hsig : ∀ s, signatureHeader = some s →
      verifyWebhookSignature hmacHex rawPayload (replaceFirstStr s "sha256=")
        wi.webhook_secret = true) :
    webhookReceiver hmacHex db webhookId rawPayload headers signatureHeader
        mappedData payloadText
      = processWebhook db wi rawPayload headers mappedData payloadText := by
  unfold webhookReceiver
  rw [hwi]
  cases signatureHeader with
  | none => simp [hactive]
  | some s =>
    have hs := hsig s rfl
    simp [hactive, hs]

theorem processWebhook_spec (db : DB) (wi : WebhookIntegration)
    (rawPayload headers : String) (mappedData : MappedData)
    (payloadText : PayloadText) (obj : Objective)
    (hobj : db.objectives.find? (fun o => o.id == wi.objective_id) = some obj)
    (hparent : ∀ pid, obj.parent_objective_id = some pid → wi.objective_id ≠ pid)
    (hupd : hasUpdates (webhookUpdates obj mappedData).1 = true) :
    (processWebhook db wi rawPayload headers mappedData payloadText).2
      = WebhookResponse.processed (webhookUpdates obj mappedData).1 ∧
    (processWebhook db wi rawPayload headers mappedData
        payloadText).1.objectives.find? (fun o => o.id == wi.objective_id)
      = some (applyUpdates (webhookUpdates obj mappedData).1 obj) ∧
    (processWebhook db wi rawPayload headers mappedData payloadText).1.progress_updates
      = db.progress_updates ++ [⟨wi.objective_id, none,
          (webhookUpdates obj mappedData).2.1, (webhookUpdates obj mappedData).2.2,
          "Updated via webhook"⟩] ∧
    (processWebhook db wi rawPayload headers mappedData payloadText).1.comments
      = db.comments ++ [⟨wi.objective_id, none,
          buildCommentContent (selectWebhookComment mappedData payloadText)
            (buildChangedFields obj (webhookUpdates obj mappedData).1)
            (webhookUpdates obj mappedData).2.1
            (webhookUpdates obj mappedData).2.2
            (webhookUpdates obj mappedData).1⟩] := by
  have hfindU : (db.objectives.map (fun o =>
        if o.id == wi.objective_id
        then applyUpdates (webhookUpdates obj mappedData).1 o else o)).find?
      (fun o => o.id == wi.objective_id)
      = some (applyUpdates (webhookUpdates obj mappedData).1 obj) :=
    find?_update Objective.id db.objectives wi.objective_id
      (applyUpdates (webhookUpdates obj mappedData).1) (fun a => rfl) obj hobj
  unfold processWebhook
  simp only [hobj, hupd, if_true]
  cases hpar : obj.parent_objective_id with
  | none =>
    refine ⟨by trivial, ?_, by trivial, by trivial⟩
    exact hfindU
  | some pid =>
    have hne := hparent pid hpar
    refine ⟨by trivial, ?_, ?_, ?_⟩
    · exact calc_find_other _ pid wi.objective_id hne _ hfindU
    · exact (calc_frame _ pid).2.2.2.1
    · exact (calc_frame _ pid).2.2.2.2.1

/-- **C1**: a delivery to an active integration whose signature fails
verification leaves the objectives (and audit tables) untouched, records a
`WebhookEvent` with `processed = false` and `error_message = "Invalid
signature"`, bumps the integration's `failure_count` by exactly one, and
responds 401 Unauthorized. -/
theorem webhook_invalid_signature_audit (hmacHex : String → String → String)
    (db : DB) (webhookId : Nat) (rawPayload headers sigHeader : String)
    (mappedData : MappedData) (payloadText : PayloadText) (wi : WebhookIntegration)
    (hwi : db.webhook_integrations.find? (fun w => w.id == webhookId) = some wi)
    (hactive : wi.status = "active")
    (hsig : verifyWebhookSignature hmacHex rawPayload
        (replaceFirstStr sigHeader "sha256=") wi.webhook_secret = false) :
    (webhookReceiver hmacHex db webhookId rawPayload headers (some sigHeader)
        mappedData payloadText).2 = WebhookResponse.invalidSignature ∧
    statusCode (webhookReceiver hmacHex db webhookId rawPayload headers
        (some sigHeader) mappedData payloadText).2 = 401 ∧
    (webhookReceiver hmacHex db webhookId rawPayload headers (some sigHeader)
        mappedData payloadText).1.objectives = db.objectives ∧
    (webhookReceiver hmacHex db webhookId rawPayload headers (some sigHeader)
        mappedData payloadText).1.progress_updates = db.progress_updates ∧
    (webhookReceiver hmacHex db webhookId rawPayload headers (some sigHeader)
        mappedData payloadText).1.comments = db.comments ∧
    (webhookReceiver hmacHex db webhookId rawPayload headers (some sigHeader)
        mappedData payloadText).1.webhook_events
      = db.webhook_events ++ [⟨webhookId, rawPayload, headers, false,
          some "Invalid signature", none, none⟩] ∧
    (webhookReceiver hmacHex db webhookId rawPayload headers (some sigHeader)
        mappedData payloadText).1.webhook_integrations.find?
        (fun w => w.id == webhookId)
      = some { wi with failure_count := wi.failure_count + 1 } := by
  have hkey := find?_update WebhookIntegration.id db.webhook_integrations webhookId
    (fun w => { w with failure_count := w.failure_count + 1 }) (fun a => rfl) wi hwi
  have hred : webhookReceiver hmacHex db webhookId rawPayload headers
      (some sigHeader) mappedData payloadText
      = ({ db with
          webhook_integrations := db.webhook_integrations.map (fun w =>
            if w.id == webhookId then { w with failure_count := w.failure_count + 1 }
            else w),
          webhook_events := db.webhook_events ++ [⟨webhookId, rawPayload, headers,
            false, some "Invalid signature", none, none⟩] },
        WebhookResponse.invalidSignature) := by
    unfold webhookReceiver
    rw [hwi]
    simp [hactive, hsig]
  rw [hred]
  exact ⟨rfl, rfl, rfl, rfl, rfl, rfl, hkey⟩

/-- **C5**: when the mapping yields only a `progress_percentage`, the stored
value is clamped to `[0,100]` via `Math.max(0, Math.min(100, p))`. -/
theorem webhook_direct_progress_clamped (hmacHex : String → String → String)
    (db : DB) (webhookId : Nat) (rawPayload headers : String)
    (signatureHeader : Option String) (mappedData : MappedData)
    (payloadText : PayloadText) (wi : WebhookIntegration) (obj : Objective) (p : ℚ)
    (hwi : db.webhook_integrations.find? (fun w => w.id == webhookId) = some wi)
    (hactive : wi.status = "active")
    (hsig : ∀ s, signatureHeader = some s →
      verifyWebhookSignature hmacHex rawPayload (replaceFirstStr s "sha256=")
        wi.webhook_secret = true)
    (hobj : db.objectives.find? (fun o => o.id == wi.objective_id) = some obj)
    (hparent : ∀ pid, obj.parent_objective_id = some pid → wi.objective_id ≠ pid)
    (hp : mappedData.progress_percentage = some p)
    (hcv : mappedData.current_value = none)
    (htv : mappedData.target_value = none) :
    ((webhookReceiver hmacHex db webhookId rawPayload headers signatureHeader
        mappedData payloadText).1.objectives.find?
        (fun o => o.id == wi.objective_id)).map Objective.progress_percentage
      = some (some (max 0 (min 100 p))) := by
  have hu : webhookUpdates obj mappedData
      = ({ progress_percentage := some (max 0 (min 100 p)), current_value := none,
            target_value := none },
          jsOr obj.current_value 0, jsOr obj.current_value 0) := by
    simp [webhookUpdates, hp, hcv, htv]
  have hupd : hasUpdates (webhookUpdates obj mappedData).1 = true := by
    rw [hu]
    simp [hasUpdates]
  rw [webhookReceiver_verified_ok hmacHex db webhookId rawPayload headers
    signatureHeader mappedData payloadText wi hwi hactive hsig]
  have hspec := processWebhook_spec db wi rawPayload headers mappedData payloadText
    obj hobj hparent hupd
  rw [hspec.2.1, hu]
  simp [applyUpdates]

/-- **C3**: when the mapping yields both a `current_value` and a
`target_value > 0`, the stored `progress_percentage` is recomputed from the
new current against the new target (clamped at 100), regardless of the
objective's old target and of any directly mapped `progress_percentage`. -/
theorem webhook_target_value_tiebreak (hmacHex : String → String → String)
    (db : DB) (webhookId : Nat) (rawPayload headers : String)
    (signatureHeader : Option String) (mappedData : MappedData)
    (payloadText : PayloadText) (wi : WebhookIntegration) (obj : Objective)
    (cv ntv : ℚ)
    (hwi : db.webhook_integrations.find? (fun w => w.id == webhookId) = some wi)
    (hactive : wi.status = "active")
    (hsig : ∀ s, signatureHeader = some s →
      verifyWebhookSignature hmacHex rawPayload (replaceFirstStr s "sha256=")
        wi.webhook_secret = true)
    (hobj : db.objectives.find? (fun o => o.id == wi.objective_id) = some obj)
    (hparent : ∀ pid, obj.parent_objective_id = some pid → wi.objective_id ≠ pid)
    (hcv : mappedData.current_value = some cv)
    (htv : mappedData.target_value = some ntv)
    (hpos : 0 < ntv) :
    ((webhookReceiver hmacHex db webhookId rawPayload headers signatureHeader
        mappedData payloadText).1.objectives.find?
        (fun o => o.id == wi.objective_id)).map Objective.progress_percentage
      = some (some (min 100 (cv / ntv * 100))) := by
  have hu : ((webhookUpdates obj mappedData).1).progress_percentage
        = some (min 100 (cv / ntv * 100))
      ∧ hasUpdates (webhookUpdates obj mappedData).1 = true := by
    cases hpp : mappedData.progress_percentage <;>
      by_cases hot : 0 < jsOr obj.target_value 0 <;>
        simp [webhookUpdates, hpp, hcv, htv, hot, hpos, hasUpdates]
  rw [webhookReceiver_verified_ok hmacHex db webhookId rawPayload headers
    signatureHeader mappedData payloadText wi hwi hactive hsig]
  have hspec := processWebhook_spec db wi rawPayload headers mappedData payloadText
    obj hobj hparent hu.2
  rw [hspec.2.1]
  simp [applyUpdates, hu.1]

/-- **C6**: a verified delivery mapping `current_value = 80` against an
objective with `target_value = 100` stores `progress_percentage = 80` and
appends exactly one `ProgressUpdate` row (with `user_id = null`) and exactly
one `Comment` row. -/
theorem webhook_current80_sets_progress80 (hmacHex : String → String → String)
    (db : DB) (webhookId : Nat) (rawPayload headers : String)
    (signatureHeader : Option String) (mappedData : MappedData)
    (payloadText : PayloadText) (wi : WebhookIntegration) (obj : Objective)
    (hwi : db.webhook_integrations.find? (fun w => w.id == webhookId) = some wi)
    (hactive : wi.status = "active")
    (hsig : ∀ s, signatureHeader = some s →
      verifyWebhookSignature hmacHex rawPayload (replaceFirstStr s "sha256=")
        wi.webhook_secret = true)
    (hobj : db.objectives.find? (fun o => o.id == wi.objective_id) = some obj)
    (hparent : ∀ pid, obj.parent_objective_id = some pid → wi.objective_id ≠ pid)
    (htarget : obj.target_value = some 100)
    (hcv : mappedData.current_value = some 80)
    (htv : mappedData.target_value = none) :
    ((webhookReceiver hmacHex db webhookId rawPayload headers signatureHeader
        mappedData payloadText).1.objectives.find?
        (fun o => o.id == wi.objective_id)).map Objective.progress_percentage
      = some (some 80) ∧
    (webhookReceiver hmacHex db webhookId rawPayload headers signatureHeader
        mappedData payloadText).1.progress_updates
      = db.progress_updates ++ [⟨wi.objective_id, none, jsOr obj.current_value 0,
          80, "Updated via webhook"⟩] ∧
    (∃ content, (webhookReceiver hmacHex db webhookId rawPayload headers
        signatureHeader mappedData payloadText).1.comments
      = db.comments ++ [⟨wi.objective_id, none, content⟩]) := by
  have harith : min (100 : ℚ) (80 / 100 * 100) = 80 := by norm_num
  have hu : ((webhookUpdates obj mappedData).1).progress_percentage = some 80
      ∧ (webhookUpdates obj mappedData).2.1 = jsOr obj.current_value 0
      ∧ (webhookUpdates obj mappedData).2.2 = 80
      ∧ hasUpdates (webhookUpdates obj mappedData).1 = true := by
    cases hpp : mappedData.progress_percentage <;>
      simp [webhookUpdates, hpp, hcv, htv, htarget, hasUpdates, jsOr, harith] <;>
        norm_num
  rw [webhookReceiver_verified_ok hmacHex db webhookId rawPayload headers
    signatureHeader mappedData payloadText wi hwi hactive hsig]
  have hspec := processWebhook_spec db wi rawPayload headers mappedData payloadText
    obj hobj hparent hu.2.2.2
  refine ⟨?_, ?_, ?_⟩
  · rw [hspec.2.1]
    simp [applyUpdates, hu.1]
  · rw [hspec.2.2.1, hu.2.1, hu.2.2.1]
  · exact ⟨_, hspec.2.2.2⟩

/-- A stand-in digest function for concrete webhook inputs (the SHA-256 hex
digest of the empty string). -/
def hmacHexC : String → String → String :=
  fun _ _ => "e3b0c44298fc1c149afbf4c8996fb92427ae41e4649b934ca495991b7852b855"

def wiC9 : WebhookIntegration := ⟨5, 1, "sec", "active", 0⟩

def objC9 : Objective := ⟨1, none, none, some 100, some 10, some 10⟩

def dbC9 : DB := ⟨[objC9], [], [wiC9], [], [], [], [], [], [], []⟩

def mdC9 : MappedData := { current_value := some (-50) }

/-- **C9**: a progress derived from a mapped `current_value` is only clamped
from above (`Math.min(100, ...)` with no lower bound): mapping
`current_value = -50` against target 100 stores `progress_percentage = -50`,
which is negative. -/
theorem webhook_negative_derived_progress_stored :
    ((webhookReceiver hmacHexC dbC9 5 "p" "h" none mdC9 {}).1.objectives.find?
        (fun o => o.id == 1)).map Objective.progress_percentage
      = some (some (-50)) ∧ ((-50 : ℚ) < 0) := by
  refine ⟨?_, by norm_num⟩
  rw [webhookReceiver_verified_ok hmacHexC dbC9 5 "p" "h" none mdC9 {} wiC9
    (by decide) rfl (fun s hs => Option.noConfusion hs)]
  have harith : min (100 : ℚ) (-50 / 100 * 100) = -50 := by
    rw [show ((-50 : ℚ) / 100 * 100) = -50 by norm_num]
    exact min_eq_right (by norm_num)
  have hu : ((webhookUpdates objC9 mdC9).1).progress_percentage = some (-50)
      ∧ hasUpdates (webhookUpdates objC9 mdC9).1 = true := by
    simp [webhookUpdates, mdC9, objC9, jsOr, hasUpdates, harith]
    norm_num
  have hspec := processWebhook_spec dbC9 wiC9 "p" "h" mdC9 {} objC9 (by decide)
    (fun pid hp => by simp [objC9] at hp) hu.2
  have hfin : ((processWebhook dbC9 wiC9 "p" "h" mdC9 {}).1.objectives.find?
      (fun o => o.id == wiC9.objective_id)).map Objective.progress_percentage
      = some (some (-50)) := by
    rw [hspec.2.1]
    simp [applyUpdates, hu.1]
  exact hfin

def wiW1 : WebhookIntegration := ⟨7, 1, "sec", "active", 3⟩

def dbW1 : DB := ⟨[], [], [wiW1], [], [], [], [], [], [], []⟩

/-- Witness for C1: a delivery with header `sha256=bb` whose stripped
signature does not match the digest. -/
theorem webhook_invalid_signature_witness :
    dbW1.webhook_integrations.find? (fun w => w.id == 7) = some wiW1 ∧
    wiW1.status = "active" ∧
    verifyWebhookSignature hmacHexC "p" (replaceFirstStr "sha256=bb" "sha256=")
      wiW1.webhook_secret = false ∧
    (webhookReceiver hmacHexC dbW1 7 "p" "h" (some "sha256=bb") {} {}).2
      = WebhookResponse.invalidSignature ∧
    statusCode (webhookReceiver hmacHexC dbW1 7 "p" "h" (some "sha256=bb") {} {}).2
      = 401 ∧
    (webhookReceiver hmacHexC dbW1 7 "p" "h" (some "sha256=bb") {} {}).1.objectives
      = dbW1.objectives ∧
    (webhookReceiver hmacHexC dbW1 7 "p" "h"
        (some "sha256=bb") {} {}).1.webhook_events
      = dbW1.webhook_events ++ [⟨7, "p", "h", false, some "Invalid signature",
          none, none⟩] ∧
    (webhookReceiver hmacHexC dbW1 7 "p" "h"
        (some "sha256=bb") {} {}).1.webhook_integrations.find? (fun w => w.id == 7)
      = some { wiW1 with failure_count := wiW1.failure_count + 1 } :=
  ⟨by decide, rfl, by decide,
   (webhook_invalid_signature_audit hmacHexC dbW1 7 "p" "h" "sha256=bb" {} {} wiW1
     (by decide) rfl (by decide)).1,
   (webhook_invalid_signature_audit hmacHexC dbW1 7 "p" "h" "sha256=bb" {} {} wiW1
     (by decide) rfl (by decide)).2.1,
   (webhook_invalid_signature_audit hmacHexC dbW1 7 "p" "h" "sha256=bb" {} {} wiW1
     (by decide) rfl (by decide)).2.2.1,
   (webhook_invalid_signature_audit hmacHexC dbW1 7 "p" "h" "sha256=bb" {} {} wiW1
     (by decide) rfl (by decide)).2.2.2.2.2.1,
   (webhook_invalid_signature_audit hmacHexC dbW1 7 "p" "h" "sha256=bb" {} {} wiW1
     (by decide) rfl (by decide)).2.2.2.2.2.2⟩

def wiW5 : WebhookIntegration := ⟨6, 2, "sec", "active", 0⟩

def objW5 : Objective := ⟨2, none, none, none, none, none⟩

def dbW5 : DB := ⟨[objW5], [], [wiW5], [], [], [], [], [], [], []⟩

def mdW5a : MappedData := { progress_percentage := some 150 }

def mdW5b : MappedData := { progress_percentage := some (-10) }

/-- Witness for C5: a mapped progress of 150 stores 100, of -10 stores 0. -/
theorem webhook_direct_progress_clamped_witness :
    dbW5.webhook_integrations.find? (fun w => w.id == 6) = some wiW5 ∧
    dbW5.objectives.find? (fun o => o.id == wiW5.objective_id) = some objW5 ∧
    max (0 : ℚ) (min 100 150) = 100 ∧
    max (0 : ℚ) (min 100 (-10)) = 0 ∧
    ((webhookReceiver hmacHexC dbW5 6 "p" "h" none mdW5a {}).1.objectives.find?
        (fun o => o.id == wiW5.objective_id)).map Objective.progress_percentage
      = some (some (max 0 (min 100 150))) ∧
    ((webhookReceiver hmacHexC dbW5 6 "p" "h" none mdW5b {}).1.objectives.find?
        (fun o => o.id == wiW5.objective_id)).map Objective.progress_percentage
      = some (some (max 0 (min 100 (-10)))) :=
  ⟨by decide, by decide, by decide, by decide,
   webhook_direct_progress_clamped hmacHexC dbW5 6 "p" "h" none mdW5a {} wiW5 objW5
     150 (by decide) rfl (fun s hs => Option.noConfusion hs) (by decide)
     (fun pid hp => by simp [objW5] at hp) rfl rfl rfl,
   webhook_direct_progress_clamped hmacHexC dbW5 6 "p" "h" none mdW5b {} wiW5 objW5
     (-10) (by decide) rfl (fun s hs => Option.noConfusion hs) (by decide)
     (fun pid hp => by simp [objW5] at hp) rfl rfl rfl⟩

def wiW3 : WebhookIntegration := ⟨8, 3, "sec", "active", 0⟩

def objW3 : Objective := ⟨3, none, none, some 100, some 10, some 10⟩

def dbW3 : DB := ⟨[objW3], [], [wiW3], [], [], [], [], [], [], []⟩

def mdW3 : MappedData :=
  { progress_percentage := some 10, current_value := some 30,
    target_value := some 60 }

/-- Witness for C3: mapping both `current_value = 30` and `target_value = 60`
(old target 100, mapped progress 10) derives progress from the new target. -/
theorem webhook_target_value_tiebreak_witness :
    dbW3.webhook_integrations.find? (fun w => w.id == 8) = some wiW3 ∧
    dbW3.objectives.find? (fun o => o.id == wiW3.objective_id) = some objW3 ∧
    (0 : ℚ) < 60 ∧
    ((webhookReceiver hmacHexC dbW3 8 "p" "h" none mdW3 {}).1.objectives.find?
        (fun o => o.id == wiW3.objective_id)).map Objective.progress_percentage
      = some (some (min 100 (30 / 60 * 100))) :=
  ⟨by decide, by decide, by decide,
   webhook_target_value_tiebreak hmacHexC dbW3 8 "p" "h" none mdW3 {} wiW3 objW3
     30 60 (by decide) rfl (fun s hs => Option.noConfusion hs) (by decide)
     (fun pid hp => by simp [objW3] at hp) rfl rfl (by decide)⟩

def wiW6 : WebhookIntegration := ⟨9, 4, "sec", "active", 0⟩

def objW6 : Objective := ⟨4, none, none, some 100, some 10, some 10⟩

def dbW6 : DB := ⟨[objW6], [], [wiW6], [], [], [], [], [], [], []⟩

def mdW6 : MappedData := { current_value := some 80 }

/-- Witness for C6: `current_value = 80` against target 100. -/
theorem webhook_current80_sets_progress80_witness :
    dbW6.webhook_integrations.find? (fun w => w.id == 9) = some wiW6 ∧
    dbW6.objectives.find? (fun o => o.id == wiW6.objective_id) = some objW6 ∧
    objW6.target_value = some 100 ∧
    (((webhookReceiver hmacHexC dbW6 9 "p" "h" none mdW6 {}).1.objectives.find?
          (fun o => o.id == wiW6.objective_id)).map Objective.progress_percentage
        = some (some 80) ∧
      (webhookReceiver hmacHexC dbW6 9 "p" "h" none mdW6 {}).1.progress_updates
        = dbW6.progress_updates ++ [⟨wiW6.objective_id, none,
            jsOr objW6.current_value 0, 80, "Updated via webhook"⟩] ∧
      (∃ content, (webhookReceiver hmacHexC dbW6 9 "p" "h" none
          mdW6 {}).1.comments
        = dbW6.comments ++ [⟨wiW6.objective_id, none, content⟩])) :=
  ⟨by decide, by decide, rfl,
   webhook_current80_sets_progress80 hmacHexC dbW6 9 "p" "h" none mdW6 {} wiW6
     objW6 (by decide) rfl (fun s hs => Option.noConfusion hs) (by decide)
     (fun pid hp => by simp [objW6] at hp) rfl rfl rfl⟩
